import Mathlib

/-!
Shallow embedding of `src/ib-proxy/proxy.py` (the IB proxy service).

The mutable global dict `connection_status` becomes the record
`ConnStatus`.  The external gateway library (`ib_insync.IB`) is modelled
by environment records supplying the outcomes of its calls
(`ib.isConnected()`, `ib.reqCurrentTime()`, `ib.connect(...)`, the data
returned by query calls); each Python function that reads the gateway
becomes a Lean function of the corresponding environment and the current
`ConnStatus`.  Exceptions become `Except`/`Option`, and HTTP errors
raised by `run_with_timeout`/`verify_api_key` become `HttpErr` values.
-/

set_option linter.unusedVariables false

/-- Configuration constant `IB_TIMEOUT = 5` from proxy.py line 27. -/
def IB_TIMEOUT : Nat := 5

/-- Configuration constant `HEARTBEAT_MAX_FAILURES = 3` from proxy.py line 31. -/
def HEARTBEAT_MAX_FAILURES : Nat := 3

/-- The `connection_status` global dict (proxy.py lines 51-58). -/
structure ConnStatus where
  connected : Bool
  account_id : Option String
  error : Option String
  last_heartbeat : Option Nat
  heartbeat_failures : Nat
  heartbeat_verified : Bool
deriving DecidableEq, Repr

/-- Initial value of `connection_status` (proxy.py lines 51-58). -/
def initial_status : ConnStatus :=
  { connected := false, account_id := none, error := none,
    last_heartbeat := none, heartbeat_failures := 0, heartbeat_verified := false }

/-- Outcome of a call to `ib.reqCurrentTime()`: it either raises, or returns a
value whose Python truthiness is the carried Bool. -/
inductive ProbeRes where
  | raises
  | time (truthy : Bool)
deriving DecidableEq, Repr

/-- `bool(server_time)` test: the probe returned (did not raise) a truthy value. -/
def probe_ok (pr : ProbeRes) : Bool :=
  match pr with
  | .time true => true
  | _ => false

/-- Environment of one `_ib_connect` call: what the gateway library does at
each call site inside it (proxy.py lines 108-142). -/
structure ConnectEnv where
  /-- `ib.isConnected()` at entry (line 112). -/
  isConnected : Bool
  /-- outcome of `ib.reqCurrentTime()` on the existing session (line 115). -/
  probe : ProbeRes
  /-- `some msg` when `ib.connect(...)` raises `Exception(msg)` (line 126). -/
  connectRaises : Option String
  /-- `ib.isConnected()` right after `ib.connect` returns (line 127). -/
  connectedAfter : Bool
  /-- `ib.managedAccounts()` (line 128). -/
  accounts : List String
  /-- `time.time()` (line 134), as a Nat timestamp. -/
  now : Nat
deriving DecidableEq, Repr

/-- Result of `_ib_connect`: the returned Bool, the updated
`connection_status`, and two observations used by the spec: whether the
stale-session teardown (`ib.disconnect()` in the `except` at lines 120-123)
ran, and whether a fresh `ib.connect` attempt (line 126) was reached. -/
structure ConnectOut where
  result : Bool
  state : ConnStatus
  toreDownStale : Bool
  attemptedFresh : Bool
deriving DecidableEq, Repr

/-- The tail of `_ib_connect` from line 125 on: `try: ib.connect(...)`;
on success updates all six `connection_status` fields and returns True;
if `ib.connect` raises, records the error and returns False; if it returns
but `ib.isConnected()` is false, returns False with no state change. -/
def connect_attempt (env : ConnectEnv) (s : ConnStatus) (toreDown : Bool) : ConnectOut :=
  match env.connectRaises with
  | some msg =>
      { result := false,
        state := { s with error := some msg, connected := false, heartbeat_verified := false },
        toreDownStale := toreDown, attemptedFresh := true }
  | none =>
      if env.connectedAfter then
        { result := true,
          state := { connected := true,
                     account_id := env.accounts.head?,
                     error := none,
                     last_heartbeat := some env.now,
                     heartbeat_failures := 0,
                     heartbeat_verified := true },
          toreDownStale := toreDown, attemptedFresh := true }
      else
        { result := false, state := s, toreDownStale := toreDown, attemptedFresh := true }

/-- `_ib_connect` (proxy.py lines 108-142).  If the transport says the session
is open, it probes with `reqCurrentTime`: a truthy reply returns True at once;
an exception tears the stale session down (swallowing teardown errors) and
falls through to a fresh attempt; a falsy reply falls through WITHOUT the
teardown (no exception was raised, so the `except` branch is skipped). -/
def ib_connect (env : ConnectEnv) (s : ConnStatus) : ConnectOut :=
  if env.isConnected then
    match env.probe with
    | .time true => { result := true, state := s, toreDownStale := false, attemptedFresh := false }
    | .time false => connect_attempt env s false
    | .raises => connect_attempt env s true
  else
    connect_attempt env s false

/-- Environment of one `_ib_disconnect` call (proxy.py lines 144-156): what the
gateway does inside the `try` block.  Both fields only affect the external
session object; any exception is swallowed by `except: pass`. -/
structure DisconnectEnv where
  isConnected : Bool
  teardownRaises : Bool
deriving DecidableEq, Repr

/-- `_ib_disconnect` (proxy.py lines 144-156): best-effort teardown whose
failure is swallowed, then unconditionally resets `connected`, `account_id`,
`heartbeat_verified` and `heartbeat_failures`.  `error` and `last_heartbeat`
are not touched. -/
def ib_disconnect (env : DisconnectEnv) (s : ConnStatus) : ConnStatus :=
  { s with connected := false, account_id := none,
           heartbeat_verified := false, heartbeat_failures := 0 }

/-- The `POST /disconnect` endpoint (proxy.py lines 472-476): runs
`_ib_disconnect` and always responds `{'success': True}`. -/
def disconnect_route (env : DisconnectEnv) (s : ConnStatus) : ConnStatus × Bool :=
  (ib_disconnect env s, true)

/-- The response dict of `_ib_get_status` (proxy.py lines 158-170). -/
structure StatusView where
  connected : Bool
  status : String
  tradingMode : String
  account : Option String
  error : Option String
  lastHeartbeat : Option Nat
  heartbeatFailures : Nat
deriving DecidableEq, Repr

/-- `_ib_get_status` (proxy.py lines 158-170). -/
def ib_get_status (s : ConnStatus) : StatusView :=
  let is_connected := s.connected && s.heartbeat_verified
  { connected := is_connected,
    status := if is_connected then "connected" else "disconnected",
    tradingMode := "paper",
    account := s.account_id,
    error := if is_connected then none else s.error,
    lastHeartbeat := s.last_heartbeat,
    heartbeatFailures := s.heartbeat_failures }

/-- `_ib_heartbeat` (proxy.py lines 88-105): False when the transport is not
open; otherwise True exactly when `reqCurrentTime` returns a truthy value
(an exception is caught and yields False). -/
def ib_heartbeat (isConn : Bool) (pr : ProbeRes) : Bool :=
  if isConn then
    match pr with
    | .time b => b
    | .raises => false
  else false

/-- Outcome of one iteration's probe in `heartbeat_monitor`: either the
`asyncio.wait_for` timed out (lines 393-403), or `_ib_heartbeat` ran with the
given gateway observations. -/
inductive HbOutcome where
  | probe (isConn : Bool) (pr : ProbeRes)
  | timeout
deriving DecidableEq, Repr

/-- Environment of one `heartbeat_monitor` iteration (proxy.py lines 355-403):
the probe outcome, the clock, and the gateway behaviour of the recovery
`_ib_connect` the failure branch may invoke (line 389). -/
structure HbEnv where
  outcome : HbOutcome
  now : Nat
  recovery : ConnectEnv
deriving DecidableEq, Repr

/-- `connection_status['heartbeat_failures'] += 1` (lines 375 and 395). -/
def bump_failures (s : ConnStatus) : ConnStatus :=
  { s with heartbeat_failures := s.heartbeat_failures + 1 }

/-- The three assignments made when the failure threshold is reached
(lines 382-384 and 401-403): `heartbeat_verified=False`, `connected=False`,
`error=msg`. -/
def mark_dead (msg : String) (s : ConnStatus) : ConnStatus :=
  { s with heartbeat_verified := false, connected := false, error := some msg }

/-- Result of one `heartbeat_monitor` iteration: the updated state and whether
the recovery `_ib_connect` (line 389) was invoked. -/
structure HbOut where
  state : ConnStatus
  reconnectAttempted : Bool
deriving DecidableEq, Repr

/-- One iteration of `heartbeat_monitor` (proxy.py lines 355-403).  A
successful probe resets the failure counter, marks verified+connected, stamps
the heartbeat time and clears the error.  A failed probe increments the
counter; at the threshold it marks the state dead with
"Heartbeat failed 3 times" and invokes `_ib_connect` as recovery (whose own
errors are caught; the worker runs it to completion, so its state effect
lands even if the awaiting caller times out).  A timed-out probe increments
the counter; at the threshold it marks the state dead with
"Heartbeat timeout" and does NOT invoke any recovery connect. -/
def heartbeat_cycle (env : HbEnv) (s : ConnStatus) : HbOut :=
  match env.outcome with
  | .probe isConn pr =>
      if ib_heartbeat isConn pr then
        { state := { s with heartbeat_failures := 0, heartbeat_verified := true,
                            last_heartbeat := some env.now, connected := true, error := none },
          reconnectAttempted := false }
      else
        let s1 := bump_failures s
        if HEARTBEAT_MAX_FAILURES ≤ s1.heartbeat_failures then
          { state := (ib_connect env.recovery
              (mark_dead ("Heartbeat failed " ++ toString HEARTBEAT_MAX_FAILURES ++ " times") s1)).state,
            reconnectAttempted := true }
        else
          { state := s1, reconnectAttempted := false }
  | .timeout =>
      let s1 := bump_failures s
      if HEARTBEAT_MAX_FAILURES ≤ s1.heartbeat_failures then
        { state := mark_dead "Heartbeat timeout" s1, reconnectAttempted := false }
      else
        { state := s1, reconnectAttempted := false }

/-- An event of the system: one state-mutating operation run against
`connection_status` (a connect call, a disconnect call, or one heartbeat
monitor iteration), together with the gateway behaviour observed during it. -/
inductive Event where
  | connectEv (env : ConnectEnv)
  | disconnectEv (env : DisconnectEnv)
  | heartbeatEv (env : HbEnv)
deriving DecidableEq, Repr

/-- The state transition an event performs on `connection_status`. -/
def apply_event (e : Event) (s : ConnStatus) : ConnStatus :=
  match e with
  | .connectEv env => (ib_connect env s).state
  | .disconnectEv env => ib_disconnect env s
  | .heartbeatEv env => (heartbeat_cycle env s).state

/-- The state reached from the initial `connection_status` by a sequence of
events; every reachable state of the system is `run_trace es` for some trace. -/
def run_trace (es : List Event) : ConnStatus :=
  es.foldl (fun s e => apply_event e s) initial_status

/-- A `_ib_connect` call with this environment establishes a fresh session
(reaches the `ib.connect` attempt, which returns with the transport open):
exactly the runs that execute lines 129-136. -/
def connect_establishes (env : ConnectEnv) : Bool :=
  !(env.isConnected && probe_ok env.probe) && env.connectRaises.isNone && env.connectedAfter

/-- The probe of a `heartbeat_monitor` iteration succeeds (line 364 truthy). -/
def hb_succeeds (env : HbEnv) : Bool :=
  match env.outcome with
  | .probe isConn pr => ib_heartbeat isConn pr
  | .timeout => false

/-- The event contains a successful connect or a successful heartbeat probe
(the only code paths that assign `heartbeat_verified = True`). -/
def event_establishes (e : Event) : Bool :=
  match e with
  | .connectEv env => connect_establishes env
  | .disconnectEv _ => false
  | .heartbeatEv env => hb_succeeds env || connect_establishes env.recovery

/-- An HTTPException: status code and detail string. -/
structure HttpErr where
  status : Nat
  detail : String
deriving DecidableEq, Repr

/-- Python's `"Not connected" in error_msg` substring test. -/
def contains_substr (needle hay : String) : Bool :=
  hay.toList.tails.any fun t => needle.toList.isPrefixOf t

/-- `run_with_timeout` (proxy.py lines 333-345): the awaited worker call
either times out (HTTP 504 with the formatted timeout), or finishes; a raised
exception whose message contains "Not connected" becomes HTTP 503, any other
exception HTTP 500, and a normal return is passed through. -/
def run_with_timeout (t : Nat) (timedOut : Bool) (r : Except String α) : Except HttpErr α :=
  if timedOut then
    .error ⟨504, "IB operation timed out after " ++ toString t ++ "s"⟩
  else
    match r with
    | .ok a => .ok a
    | .error msg =>
        if contains_substr "Not connected" msg then .error ⟨503, msg⟩
        else .error ⟨500, msg⟩

/-- Trade data the gateway reports for a placed/modified order
(`trade.order.orderId`, `trade.orderStatus.*` in proxy.py). -/
structure OrderEnv where
  orderId : Int
  orderStatus : String
  filled : Int
  avgFillPrice : Int
deriving DecidableEq, Repr

/-- The response dict of `_ib_place_buy_order` (proxy.py lines 187-193). -/
structure BuyResult where
  success : Bool
  orderId : Int
  status : String
  filled : Int
  avgFillPrice : Int
deriving DecidableEq, Repr

/-- The response dict of the sell/stop/modify order workers. -/
structure SimpleOrderResult where
  success : Bool
  orderId : Int
  status : String
deriving DecidableEq, Repr

/-- `_ib_place_buy_order` (proxy.py lines 172-193): raises
"Not connected to IB" when `ib.isConnected()` is false — note this is the
transport-level check on the gateway object, not the `connection_status`
`connected` flag — otherwise places the order and returns the trade data. -/
def ib_place_buy_order (ibOpen : Bool) (env : OrderEnv) : Except String BuyResult :=
  if ibOpen then
    .ok { success := true, orderId := env.orderId, status := env.orderStatus,
          filled := env.filled, avgFillPrice := env.avgFillPrice }
  else .error "Not connected to IB"

/-- `_ib_place_sell_order` (proxy.py lines 195-214). -/
def ib_place_sell_order (ibOpen : Bool) (env : OrderEnv) : Except String SimpleOrderResult :=
  if ibOpen then .ok { success := true, orderId := env.orderId, status := env.orderStatus }
  else .error "Not connected to IB"

/-- `_ib_place_stop_order` (proxy.py lines 216-236). -/
def ib_place_stop_order (ibOpen : Bool) (env : OrderEnv) : Except String SimpleOrderResult :=
  if ibOpen then .ok { success := true, orderId := env.orderId, status := env.orderStatus }
  else .error "Not connected to IB"

/-- `_ib_modify_stop_order` (proxy.py lines 238-259). -/
def ib_modify_stop_order (ibOpen : Bool) (env : OrderEnv) : Except String SimpleOrderResult :=
  if ibOpen then .ok { success := true, orderId := env.orderId, status := env.orderStatus }
  else .error "Not connected to IB"

/-- `_ib_cancel_order` (proxy.py lines 261-273): "Not connected to IB" when
the transport is closed; otherwise success if the order id is among the open
trades, else "Order not found". -/
def ib_cancel_order (ibOpen : Bool) (found : Bool) : Except String Bool :=
  if ibOpen then
    if found then .ok true else .error "Order not found"
  else .error "Not connected to IB"

/-- One position as mapped by `_ib_get_positions` (proxy.py lines 282-290). -/
structure PositionView where
  symbol : String
  position : Int
  avgCost : Int
  account : String
deriving DecidableEq, Repr

/-- One open order as mapped by `_ib_get_orders` (proxy.py lines 299-309). -/
structure OrderView where
  orderId : Int
  symbol : String
  action : String
  quantity : Int
  orderType : String
  status : String
deriving DecidableEq, Repr

/-- Account summary numbers reported by `ib.accountSummary()` as scanned by
`_ib_get_account` (proxy.py lines 320-328). -/
structure AccountNums where
  netLiquidation : Int
  availableFunds : Int
  buyingPower : Int
  totalCashValue : Int
deriving DecidableEq, Repr

/-- The summary dict built by `_ib_get_account` (proxy.py lines 311-330). -/
structure AccountView where
  accountId : Option String
  netLiquidation : Int
  availableFunds : Int
  buyingPower : Int
  totalCashValue : Int
deriving DecidableEq, Repr

/-- `_ib_get_positions` (proxy.py lines 275-290): not-connected check, then
the gateway's positions with the `pos.position != 0` filter applied. -/
def ib_get_positions (ibOpen : Bool) (data : List PositionView) :
    Except String (List PositionView) :=
  if ibOpen then .ok (data.filter fun p => p.position != 0)
  else .error "Not connected to IB"

/-- `_ib_get_orders` (proxy.py lines 292-309). -/
def ib_get_orders (ibOpen : Bool) (data : List OrderView) :
    Except String (List OrderView) :=
  if ibOpen then .ok data else .error "Not connected to IB"

/-- `_ib_get_account` (proxy.py lines 311-330): the `accountId` field comes
from `connection_status['account_id']`, the numbers from the gateway. -/
def ib_get_account (ibOpen : Bool) (s : ConnStatus) (nums : AccountNums) :
    Except String AccountView :=
  if ibOpen then
    .ok { accountId := s.account_id,
          netLiquidation := nums.netLiquidation,
          availableFunds := nums.availableFunds,
          buyingPower := nums.buyingPower,
          totalCashValue := nums.totalCashValue }
  else .error "Not connected to IB"

/-- `verify_api_key` (proxy.py lines 37-44): when no key is configured
(`API_KEY` empty) every request passes; otherwise the `X-API-Key` header must
equal the configured key or a 401 is raised. -/
def verify_api_key (apiKey : String) (provided : Option String) : Except HttpErr Unit :=
  if apiKey = "" then .ok ()
  else if provided = some apiKey then .ok ()
  else .error ⟨401, "Invalid or missing API key"⟩

/-- The routes of the FastAPI app (proxy.py lines 445-516). -/
inductive Route where
  | health
  | statusRoute
  | connectRoute
  | disconnectRoute
  | accountRoute
  | positionsRoute
  | ordersRoute
  | orderBuy
  | orderSell
  | orderStop
  | orderModifyStop
  | orderCancel
deriving DecidableEq, Repr

/-- Which routes declare the `Depends(verify_api_key)` dependency in their
handler signature (proxy.py lines 460, 473, 494, 499, 504, 509, 514).  The
five GET routes (`/health`, `/status`, `/account`, `/positions`, `/orders`)
do not. -/
def requires_api_key (r : Route) : Bool :=
  match r with
  | .health | .statusRoute | .accountRoute | .positionsRoute | .ordersRoute => false
  | _ => true

/-- The inputs a request handler consumes besides the route and the API key:
the current `connection_status` snapshot and the gateway's behaviour during
the handled request. -/
structure World where
  conn : ConnStatus
  /-- `ib.isConnected()` as observed by the worker function of this request. -/
  ibOpen : Bool
  /-- whether the awaited `run_with_timeout` call of this request times out. -/
  timedOut : Bool
  /-- gateway behaviour of a `/connect` request's `_ib_connect` call. -/
  connectEnv : ConnectEnv
  /-- whether the `/connect` request's 10s deadline elapses. -/
  connectTimedOut : Bool
  disconnectEnv : DisconnectEnv
  orderEnv : OrderEnv
  cancelFound : Bool
  positionsData : List PositionView
  ordersData : List OrderView
  accountNums : AccountNums
deriving Repr

/-- A successful response body of one of the routes. -/
inductive Body where
  | healthB (status : String) (ibConnected : Bool) (failures : Nat)
  | statusB (v : StatusView)
  | accountB (v : AccountView)
  | positionsB (l : List PositionView)
  | ordersB (l : List OrderView)
  | connectB (success : Bool) (account : Option String) (error : Option String)
  | disconnectB (success : Bool)
  | buyB (r : BuyResult)
  | simpleB (r : SimpleOrderResult)
  | cancelB (success : Bool)
deriving DecidableEq, Repr

/-- The body each route handler computes (proxy.py lines 445-516), after the
dependency check has passed.  None of the handler bodies reads the API key. -/
def dispatch (r : Route) (w : World) : Except HttpErr Body :=
  match r with
  | .health =>
      .ok (.healthB "ok" (w.conn.connected && w.conn.heartbeat_verified)
        w.conn.heartbeat_failures)
  | .statusRoute => .ok (.statusB (ib_get_status w.conn))
  | .connectRoute =>
      if w.connectTimedOut then
        .error ⟨504, "IB operation timed out after 10s"⟩
      else
        let out := ib_connect w.connectEnv w.conn
        if out.result then .ok (.connectB true out.state.account_id none)
        else .ok (.connectB false none out.state.error)
  | .disconnectRoute => .ok (.disconnectB (disconnect_route w.disconnectEnv w.conn).2)
  | .accountRoute =>
      (run_with_timeout IB_TIMEOUT w.timedOut
        (ib_get_account w.ibOpen w.conn w.accountNums)).map .accountB
  | .positionsRoute =>
      (run_with_timeout IB_TIMEOUT w.timedOut
        (ib_get_positions w.ibOpen w.positionsData)).map .positionsB
  | .ordersRoute =>
      (run_with_timeout IB_TIMEOUT w.timedOut
        (ib_get_orders w.ibOpen w.ordersData)).map .ordersB
  | .orderBuy =>
      (run_with_timeout IB_TIMEOUT w.timedOut
        (ib_place_buy_order w.ibOpen w.orderEnv)).map .buyB
  | .orderSell =>
      (run_with_timeout IB_TIMEOUT w.timedOut
        (ib_place_sell_order w.ibOpen w.orderEnv)).map .simpleB
  | .orderStop =>
      (run_with_timeout IB_TIMEOUT w.timedOut
        (ib_place_stop_order w.ibOpen w.orderEnv)).map .simpleB
  | .orderModifyStop =>
      (run_with_timeout IB_TIMEOUT w.timedOut
        (ib_modify_stop_order w.ibOpen w.orderEnv)).map .simpleB
  | .orderCancel =>
      (run_with_timeout IB_TIMEOUT w.timedOut
        (ib_cancel_order w.ibOpen w.cancelFound)).map .cancelB

/-- A request to the app: FastAPI first evaluates the route's dependencies
(`verify_api_key` where declared), and only on success runs the handler. -/
def handle (r : Route) (apiKey : String) (provided : Option String) (w : World) :
    Except HttpErr Body :=
  match (if requires_api_key r then verify_api_key apiKey provided else .ok ()) with
  | .error e => .error e
  | .ok _ => dispatch r w

/-! ## Helper lemmas -/

/-- The invariant relating `heartbeat_verified` to `heartbeat_failures` that
actually holds in the code: verification implies the failure counter is still
below the threshold. -/
def failures_ok (s : ConnStatus) : Prop :=
  s.heartbeat_verified = true → s.heartbeat_failures < HEARTBEAT_MAX_FAILURES

theorem connect_attempt_failures_ok (env : ConnectEnv) (s : ConnStatus) (td : Bool)
    (h : failures_ok s) : failures_ok (connect_attempt env s td).state := by
  rcases env with ⟨ic, pr, cr, ca, acc, n⟩
  rcases s with ⟨c, a, er, lh, hf, hv⟩
  cases cr <;> cases ca <;>
    simp_all [failures_ok, connect_attempt, HEARTBEAT_MAX_FAILURES]

theorem ib_connect_failures_ok (env : ConnectEnv) (s : ConnStatus)
    (h : failures_ok s) : failures_ok (ib_connect env s).state := by
  rcases hic : env.isConnected
  · simpa [ib_connect, hic] using connect_attempt_failures_ok env s false h
  · rcases hpr : env.probe with _ | b
    · simpa [ib_connect, hic, hpr] using connect_attempt_failures_ok env s true h
    · cases b
      · simpa [ib_connect, hic, hpr] using connect_attempt_failures_ok env s false h
      · simpa [ib_connect, hic, hpr] using h

theorem step_failures_ok (e : Event) (s : ConnStatus) (h : failures_ok s) :
    failures_ok (apply_event e s) := by
  rcases e with env | env | env
  · exact ib_connect_failures_ok env s h
  · rcases s with ⟨c, a, er, lh, hf, hv⟩
    simp [failures_ok, apply_event, ib_disconnect]
  · rcases env with ⟨oc, n, rec⟩
    rcases oc with ⟨isConn, pr⟩ | _
    · by_cases hhb : ib_heartbeat isConn pr = true
      · simp [failures_ok, apply_event, heartbeat_cycle, hhb, HEARTBEAT_MAX_FAILURES]
      · simp only [apply_event, heartbeat_cycle, Bool.not_eq_true] at *
        rw [hhb]
        by_cases hth : HEARTBEAT_MAX_FAILURES ≤ (bump_failures s).heartbeat_failures
        · simp only [hth, if_true, Bool.false_eq_true]
          exact ib_connect_failures_ok rec _ (by simp [failures_ok, mark_dead])
        · simp only [hth, if_false, Bool.false_eq_true]
          intro _
          simp only [bump_failures] at hth ⊢
          omega
    · by_cases hth : HEARTBEAT_MAX_FAILURES ≤ (bump_failures s).heartbeat_failures
      · simp [failures_ok, apply_event, heartbeat_cycle, hth, mark_dead]
      · simp only [apply_event, heartbeat_cycle, hth, if_false]
        intro _
        simp only [bump_failures] at hth ⊢
        omega

theorem trace_failures_ok (es : List Event) : failures_ok (run_trace es) := by
  have key : ∀ (l : List Event) (s : ConnStatus), failures_ok s →
      failures_ok (l.foldl (fun s e => apply_event e s) s) := by
    intro l
    induction l with
    | nil => intro s h; exact h
    | cons e tl ih => intro s h; exact ih _ (step_failures_ok e s h)
  exact key es initial_status (by simp [failures_ok, initial_status])

theorem connect_verified_of_unverified (env : ConnectEnv) (s : ConnStatus)
    (h : s.heartbeat_verified = false) :
    (ib_connect env s).state.heartbeat_verified = connect_establishes env := by
  rcases env with ⟨ic, pr, cr, ca, acc, n⟩
  rcases s with ⟨c, a, er, lh, hf, hv⟩
  cases ic <;> rcases pr with _ | b <;> (try cases b) <;> cases cr <;> cases ca <;>
    simp_all [ib_connect, connect_attempt, connect_establishes, probe_ok]

/-! ## Claim theorems -/

/-- A connect environment in which the fresh connect attempt succeeds. -/
def c1_connect_env : ConnectEnv :=
  { isConnected := false, probe := .raises, connectRaises := none,
    connectedAfter := true, accounts := ["DU111"], now := 100 }

/-- A heartbeat iteration whose probe runs and fails (falsy server time). -/
def c1_fail_env : HbEnv :=
  { outcome := .probe true (.time false), now := 105, recovery := c1_connect_env }

/-- Claim C1 as stated is false: after a successful connect followed by one
failing heartbeat probe, the reachable state has `heartbeat_verified = true`
while `consecutive_failures = 1 ≠ 0` (hysteresis keeps the verified flag
unchanged below the threshold, so "verified only if consecutiveFailures == 0"
does not hold at every reachable state). -/
theorem C1_counterexample :
    (run_trace [Event.connectEv c1_connect_env, Event.heartbeatEv c1_fail_env]).heartbeat_verified
        = true ∧
    (run_trace [Event.connectEv c1_connect_env, Event.heartbeatEv c1_fail_env]).heartbeat_failures
        = 1 ∧
    ¬ (run_trace [Event.connectEv c1_connect_env, Event.heartbeatEv c1_fail_env]).heartbeat_failures
        = 0 := by
  refine ⟨rfl, rfl, by decide⟩

/-- Claim C1, amended: at every reachable state, `heartbeatVerified = true`
implies `consecutiveFailures < HEARTBEAT_MAX_FAILURES` (not `== 0`); and
`heartbeatVerified` only ever becomes true through an event containing a
successful connect or a successful heartbeat probe. -/
theorem C1_amended_invariant :
    (∀ es : List Event, (run_trace es).heartbeat_verified = true →
        (run_trace es).heartbeat_failures < HEARTBEAT_MAX_FAILURES) ∧
    (∀ (e : Event) (s : ConnStatus), s.heartbeat_verified = false →
        (apply_event e s).heartbeat_verified = true → event_establishes e = true) := by
  constructor
  · intro es h
    exact trace_failures_ok es h
  · intro e s hs hpost
    rcases e with env | env | env
    · have := connect_verified_of_unverified env s hs
      simp only [apply_event] at hpost
      rw [hpost] at this
      simp [event_establishes, this.symm]
    · rcases s with ⟨c, a, er, lh, hf, hv⟩
      simp [apply_event, ib_disconnect] at hpost
    · rcases env with ⟨oc, n, rec⟩
      rcases oc with ⟨isConn, pr⟩ | _
      · by_cases hhb : ib_heartbeat isConn pr = true
        · simp [event_establishes, hb_succeeds, hhb]
        · simp only [Bool.not_eq_true] at hhb
          simp only [apply_event, heartbeat_cycle, hhb, Bool.false_eq_true, if_false] at hpost
          by_cases hth : HEARTBEAT_MAX_FAILURES ≤ (bump_failures s).heartbeat_failures
          · simp only [hth, if_true] at hpost
            have := connect_verified_of_unverified rec
              (mark_dead ("Heartbeat failed " ++ toString HEARTBEAT_MAX_FAILURES ++ " times")
                (bump_failures s)) (by simp [mark_dead])
            rw [hpost] at this
            simp [event_establishes, hb_succeeds, this.symm]
          · simp only [hth, if_false] at hpost
            rcases s with ⟨c, a, er, lh, hf, hv⟩
            simp [bump_failures] at hpost
            simp_all
      · simp only [apply_event, heartbeat_cycle] at hpost
        by_cases hth : HEARTBEAT_MAX_FAILURES ≤ (bump_failures s).heartbeat_failures
        · simp only [hth, if_true] at hpost
          simp [mark_dead] at hpost
        · simp only [hth, if_false] at hpost
          rcases s with ⟨c, a, er, lh, hf, hv⟩
          simp [bump_failures] at hpost
          simp_all

/-- Witness for the amended C1 invariant at concrete inputs. -/
theorem C1_amended_invariant_witness :
    (run_trace [Event.connectEv c1_connect_env]).heartbeat_failures < HEARTBEAT_MAX_FAILURES ∧
    event_establishes (Event.connectEv c1_connect_env) = true :=
  ⟨C1_amended_invariant.1 [Event.connectEv c1_connect_env] (by decide),
   C1_amended_invariant.2 (Event.connectEv c1_connect_env) initial_status (by decide) (by decide)⟩

/-- Claim C4: for every `ConnectionState`, the status read reports
`connected` as the conjunction `connected AND heartbeatVerified`, reports the
status string accordingly, and surfaces `lastError` only when that reported
status is disconnected, returning `none` for the error field otherwise. -/
theorem C4_status_read :
    ∀ s : ConnStatus,
      (ib_get_status s).connected = (s.connected && s.heartbeat_verified) ∧
      (ib_get_status s).status
        = (if s.connected && s.heartbeat_verified then "connected" else "disconnected") ∧
      (ib_get_status s).error
        = (if s.connected && s.heartbeat_verified then none else s.error) ∧
      (ib_get_status s).account = s.account_id ∧
      (ib_get_status s).lastHeartbeat = s.last_heartbeat ∧
      (ib_get_status s).heartbeatFailures = s.heartbeat_failures := by
  intro s
  exact ⟨rfl, rfl, rfl, rfl, rfl, rfl⟩

/-- Claim C8: `disconnect` is idempotent: from every state and whatever the
gateway teardown does (its failures are swallowed, so the result does not
depend on the teardown environment), it resets `connected=false`,
`accountId=none`, `heartbeatVerified=false`, `consecutiveFailures=0`, and the
endpoint returns success; applying it twice in a row yields the same state,
with both calls returning success. -/
theorem C8_disconnect_idempotent :
    ∀ (e1 e2 : DisconnectEnv) (s : ConnStatus),
      (ib_disconnect e1 s).connected = false ∧
      (ib_disconnect e1 s).account_id = none ∧
      (ib_disconnect e1 s).heartbeat_verified = false ∧
      (ib_disconnect e1 s).heartbeat_failures = 0 ∧
      ib_disconnect e1 s = ib_disconnect e2 s ∧
      ib_disconnect e2 (ib_disconnect e1 s) = ib_disconnect e1 s ∧
      (disconnect_route e1 s).2 = true ∧
      (disconnect_route e2 (disconnect_route e1 s).1).2 = true ∧
      (disconnect_route e2 (disconnect_route e1 s).1).1 = (disconnect_route e1 s).1 := by
  intro e1 e2 s
  exact ⟨rfl, rfl, rfl, rfl, rfl, rfl, rfl, rfl, rfl⟩

/-- Claim C9: the five read-only routes (`/health`, `/status`, `/account`,
`/positions`, `/orders`) never apply the API-key predicate, so their
responses are independent of the `X-API-Key` header: two requests differing
only in that header (even with a key configured) get the same result. -/
theorem C9_read_routes_key_independent :
    ∀ (apiKey : String) (k1 k2 : Option String) (w : World),
      requires_api_key Route.health = false ∧
      requires_api_key Route.statusRoute = false ∧
      requires_api_key Route.accountRoute = false ∧
      requires_api_key Route.positionsRoute = false ∧
      requires_api_key Route.ordersRoute = false ∧
      handle Route.health apiKey k1 w = handle Route.health apiKey k2 w ∧
      handle Route.statusRoute apiKey k1 w = handle Route.statusRoute apiKey k2 w ∧
      handle Route.accountRoute apiKey k1 w = handle Route.accountRoute apiKey k2 w ∧
      handle Route.positionsRoute apiKey k1 w = handle Route.positionsRoute apiKey k2 w ∧
      handle Route.ordersRoute apiKey k1 w = handle Route.ordersRoute apiKey k2 w := by
  intro apiKey k1 k2 w
  exact ⟨rfl, rfl, rfl, rfl, rfl, rfl, rfl, rfl, rfl, rfl⟩

/-- Claim C10: `disconnect` leaves `lastError` and `lastHeartbeatAt`
unchanged (it resets only `connected`, `accountId`, `heartbeatVerified` and
the failure counter), so an error recorded before the disconnect is surfaced
again by the status read after it. -/
theorem C10_disconnect_frame :
    ∀ (e : DisconnectEnv) (s : ConnStatus),
      (ib_disconnect e s).error = s.error ∧
      (ib_disconnect e s).last_heartbeat = s.last_heartbeat ∧
      (ib_disconnect e s).connected = false ∧
      (ib_disconnect e s).account_id = none ∧
      (ib_disconnect e s).heartbeat_verified = false ∧
      (ib_disconnect e s).heartbeat_failures = 0 ∧
      (ib_get_status (ib_disconnect e s)).error = s.error := by
  intro e s
  exact ⟨rfl, rfl, rfl, rfl, rfl, rfl, rfl⟩

/-- A verified state two failures into a run (the next failure reaches the
threshold). -/
def c2_state : ConnStatus :=
  { connected := true, account_id := some "DU111", error := none,
    last_heartbeat := some 10, heartbeat_failures := 2, heartbeat_verified := true }

/-- A recovery connect whose `ib.connect` returns but leaves the transport
closed, so the recovery changes no state. -/
def c2_recovery_env : ConnectEnv :=
  { isConnected := false, probe := .raises, connectRaises := none,
    connectedAfter := false, accounts := [], now := 20 }

/-- Claim C2 as stated is false: from the same state at the threshold, a
probe that times out and a probe that fails are handled differently — the
timeout branch sets `lastError = "Heartbeat timeout"` (not
"Heartbeat failed 3 times") and does not invoke `connect()`, while the
failure branch sets "Heartbeat failed 3 times" and does invoke it. -/
theorem C2_counterexample :
    (heartbeat_cycle ⟨.timeout, 20, c2_recovery_env⟩ c2_state).reconnectAttempted = false ∧
    (heartbeat_cycle ⟨.timeout, 20, c2_recovery_env⟩ c2_state).state.error
        = some "Heartbeat timeout" ∧
    ¬ (heartbeat_cycle ⟨.timeout, 20, c2_recovery_env⟩ c2_state).state.error
        = some "Heartbeat failed 3 times" ∧
    (heartbeat_cycle ⟨.probe true .raises, 20, c2_recovery_env⟩ c2_state).reconnectAttempted
        = true ∧
    (heartbeat_cycle ⟨.probe true .raises, 20, c2_recovery_env⟩ c2_state).state.error
        = some "Heartbeat failed 3 times" := by
  refine ⟨rfl, rfl, by decide, rfl, rfl⟩

/-- Claim C2, amended: failing and timed-out probes both increment
`consecutiveFailures`, and at the threshold both set
`heartbeatVerified=false` and `connected=false`; but the failure branch sets
`lastError = "Heartbeat failed 3 times"` and invokes `connect()` as recovery,
while the timeout branch sets `lastError = "Heartbeat timeout"` and does not
invoke `connect()`. -/
theorem C2_amended_fail_vs_timeout :
    ∀ (isConn : Bool) (pr : ProbeRes) (t : Nat) (rec : ConnectEnv) (s : ConnStatus),
      ib_heartbeat isConn pr = false →
      ((s.heartbeat_failures + 1 < HEARTBEAT_MAX_FAILURES →
          heartbeat_cycle ⟨.probe isConn pr, t, rec⟩ s = ⟨bump_failures s, false⟩ ∧
          heartbeat_cycle ⟨.timeout, t, rec⟩ s = ⟨bump_failures s, false⟩) ∧
       (HEARTBEAT_MAX_FAILURES ≤ s.heartbeat_failures + 1 →
          heartbeat_cycle ⟨.probe isConn pr, t, rec⟩ s
            = ⟨(ib_connect rec (mark_dead
                ("Heartbeat failed " ++ toString HEARTBEAT_MAX_FAILURES ++ " times")
                (bump_failures s))).state, true⟩ ∧
          heartbeat_cycle ⟨.timeout, t, rec⟩ s
            = ⟨mark_dead "Heartbeat timeout" (bump_failures s), false⟩)) := by
  intro isConn pr t rec s hhb
  constructor
  · intro hlt
    have hth : ¬ HEARTBEAT_MAX_FAILURES ≤ (bump_failures s).heartbeat_failures := by
      simp only [bump_failures]
      omega
    constructor
    · simp [heartbeat_cycle, hhb, hth]
    · simp [heartbeat_cycle, hth]
  · intro hge
    have hth : HEARTBEAT_MAX_FAILURES ≤ (bump_failures s).heartbeat_failures := by
      simp only [bump_failures]
      omega
    constructor
    · simp [heartbeat_cycle, hhb, hth]
    · simp [heartbeat_cycle, hth]

/-- Witness for the amended C2 theorem: below the threshold both kinds of
failing probe just increment the counter. -/
theorem C2_amended_fail_vs_timeout_witness :
    heartbeat_cycle ⟨.probe true .raises, 0, c2_recovery_env⟩ initial_status
        = ⟨bump_failures initial_status, false⟩ ∧
    heartbeat_cycle ⟨.timeout, 0, c2_recovery_env⟩ initial_status
        = ⟨bump_failures initial_status, false⟩ :=
  (C2_amended_fail_vs_timeout true .raises 0 c2_recovery_env initial_status (by decide)).1
    (by decide)

/-- Trade data for the order-placement counterexample. -/
def c3_order_env : OrderEnv :=
  { orderId := 7, orderStatus := "Submitted", filled := 0, avgFillPrice := 0 }

/-- Claim C3 as stated is false: the buy-order handler never consults the
`connection_status` `connected` flag — the only check is the transport-level
`ib.isConnected()` made inside the worker function after submission.  Here
the state is the initial one (marked NOT connected) while the transport
reports open, and the operation goes through and succeeds instead of
returning a NotConnectedFailure. -/
theorem C3_counterexample :
    initial_status.connected = false ∧
    run_with_timeout IB_TIMEOUT false (ib_place_buy_order true c3_order_env)
        = .ok { success := true, orderId := 7, status := "Submitted",
                filled := 0, avgFillPrice := 0 } := by
  refine ⟨rfl, rfl⟩

/-- Claim C3, amended: domain operations check the transport-level
`ib.isConnected()` inside the serialized worker (after submission), not the
`connected` status flag; when that check is false (and the call does not time
out) the worker raises "Not connected to IB", which `run_with_timeout` maps
to the distinct HTTP 503 service-unavailable error.  This holds uniformly
for the place/modify/cancel-order and query workers. -/
theorem C3_amended_not_connected_check :
    ∀ (env : OrderEnv) (s : ConnStatus) (found : Bool)
      (pos : List PositionView) (ords : List OrderView) (nums : AccountNums),
      run_with_timeout IB_TIMEOUT false (ib_place_buy_order false env)
          = .error ⟨503, "Not connected to IB"⟩ ∧
      run_with_timeout IB_TIMEOUT false (ib_place_sell_order false env)
          = .error ⟨503, "Not connected to IB"⟩ ∧
      run_with_timeout IB_TIMEOUT false (ib_place_stop_order false env)
          = .error ⟨503, "Not connected to IB"⟩ ∧
      run_with_timeout IB_TIMEOUT false (ib_modify_stop_order false env)
          = .error ⟨503, "Not connected to IB"⟩ ∧
      run_with_timeout IB_TIMEOUT false (ib_cancel_order false found)
          = .error ⟨503, "Not connected to IB"⟩ ∧
      run_with_timeout IB_TIMEOUT false (ib_get_positions false pos)
          = .error ⟨503, "Not connected to IB"⟩ ∧
      run_with_timeout IB_TIMEOUT false (ib_get_orders false ords)
          = .error ⟨503, "Not connected to IB"⟩ ∧
      run_with_timeout IB_TIMEOUT false (ib_get_account false s nums)
          = .error ⟨503, "Not connected to IB"⟩ := by
  intro env s found pos ords nums
  exact ⟨rfl, rfl, rfl, rfl, rfl, rfl, rfl, rfl⟩

/-- A state in which a session existed (accountId populated). -/
def c5_state : ConnStatus :=
  { connected := true, account_id := some "DU111", error := none,
    last_heartbeat := some 50, heartbeat_failures := 0, heartbeat_verified := true }

/-- A connect attempt that fails by exception while the transport is closed. -/
def c5_env : ConnectEnv :=
  { isConnected := false, probe := .raises, connectRaises := some "ConnectionRefusedError",
    connectedAfter := false, accounts := [], now := 60 }

/-- Claim C5 as stated is false: on a failed connect attempt in a state where
a session existed (accountId = "DU111"), the code leaves accountId unchanged
instead of clearing it — the failure branch of `_ib_connect` never touches
`account_id`. -/
theorem C5_counterexample :
    (ib_connect c5_env c5_state).result = false ∧
    (ib_connect c5_env c5_state).state.error = some "ConnectionRefusedError" ∧
    (ib_connect c5_env c5_state).state.account_id = some "DU111" ∧
    ¬ (ib_connect c5_env c5_state).state.account_id = none := by
  refine ⟨rfl, rfl, rfl, by decide⟩

/-- Claim C5, amended: a connect attempt that fails by exception sets
`connected=false` and `heartbeatVerified=false` and records `lastError`, and
it leaves `accountId` unchanged in ALL cases (whether or not a session ever
existed), as well as `lastHeartbeatAt` and the failure counter; a connect
attempt that returns without exception but with the transport still closed
fails while changing no state at all. -/
theorem C5_amended_connect_failure_frame :
    ∀ (env : ConnectEnv) (s : ConnStatus) (msg : String),
      ¬ (env.isConnected = true ∧ probe_ok env.probe = true) →
      ((env.connectRaises = some msg →
          (ib_connect env s).result = false ∧
          (ib_connect env s).state.connected = false ∧
          (ib_connect env s).state.heartbeat_verified = false ∧
          (ib_connect env s).state.error = some msg ∧
          (ib_connect env s).state.account_id = s.account_id ∧
          (ib_connect env s).state.last_heartbeat = s.last_heartbeat ∧
          (ib_connect env s).state.heartbeat_failures = s.heartbeat_failures) ∧
       (env.connectRaises = none → env.connectedAfter = false →
          (ib_connect env s).result = false ∧ (ib_connect env s).state = s)) := by
  intro env s msg hnot
  rcases env with ⟨ic, pr, cr, ca, acc, n⟩
  rcases s with ⟨c, a, er, lh, hf, hv⟩
  cases ic <;> rcases pr with _ | b <;> (try cases b) <;>
    simp_all [ib_connect, connect_attempt, probe_ok]

/-- Witness for the amended C5 theorem at the concrete failing input. -/
theorem C5_amended_connect_failure_frame_witness :
    (ib_connect c5_env c5_state).result = false ∧
    (ib_connect c5_env c5_state).state.connected = false ∧
    (ib_connect c5_env c5_state).state.heartbeat_verified = false ∧
    (ib_connect c5_env c5_state).state.error = some "ConnectionRefusedError" ∧
    (ib_connect c5_env c5_state).state.account_id = c5_state.account_id ∧
    (ib_connect c5_env c5_state).state.last_heartbeat = c5_state.last_heartbeat ∧
    (ib_connect c5_env c5_state).state.heartbeat_failures = c5_state.heartbeat_failures :=
  (C5_amended_connect_failure_frame c5_env c5_state "ConnectionRefusedError" (by decide)).1
    (by decide)

/-- A state with a stale-but-open session. -/
def c6_state : ConnStatus :=
  { connected := true, account_id := some "DU222", error := none,
    last_heartbeat := some 30, heartbeat_failures := 1, heartbeat_verified := true }

/-- Connect while the transport says open and the liveness probe returns a
falsy server time (no exception). -/
def c6_env : ConnectEnv :=
  { isConnected := true, probe := .time false, connectRaises := none,
    connectedAfter := true, accounts := ["DU222"], now := 70 }

/-- Claim C6 as stated is false: when `connect()` finds an open session and
the liveness probe fails by returning no (falsy) server time, the code does
NOT tear down the stale session — it falls through directly to the fresh
`ib.connect` attempt; the teardown only runs when the probe raises. -/
theorem C6_counterexample :
    (ib_connect c6_env c6_state).attemptedFresh = true ∧
    (ib_connect c6_env c6_state).toreDownStale = false ∧
    ¬ (ib_connect c6_env c6_state).toreDownStale = true := by
  refine ⟨rfl, rfl, by decide⟩

/-- Claim C6, amended: when a session exists whose transport-level "is open"
check is true, connect runs the liveness probe first; if the probe RAISES,
the stale session is torn down before the fresh connect attempt; if the
probe returns a falsy server time, connect proceeds to the fresh attempt
WITHOUT tearing the stale session down; if the probe returns a truthy server
time, connect returns success immediately with no state change and no fresh
attempt. -/
theorem C6_amended_stale_session_teardown :
    ∀ (env : ConnectEnv) (s : ConnStatus),
      env.isConnected = true →
      ((env.probe = ProbeRes.raises →
          (ib_connect env s).toreDownStale = true ∧
          (ib_connect env s).attemptedFresh = true) ∧
       (env.probe = ProbeRes.time false →
          (ib_connect env s).toreDownStale = false ∧
          (ib_connect env s).attemptedFresh = true) ∧
       (env.probe = ProbeRes.time true →
          (ib_connect env s).result = true ∧
          (ib_connect env s).state = s ∧
          (ib_connect env s).attemptedFresh = false)) := by
  intro env s hic
  rcases env with ⟨ic, pr, cr, ca, acc, n⟩
  simp only at hic
  subst hic
  rcases pr with _ | b <;> (try cases b) <;> cases cr <;> cases ca <;>
    simp_all [ib_connect, connect_attempt]

/-- Witness for the amended C6 theorem: with a raising probe the stale
session is torn down and a fresh attempt made. -/
theorem C6_amended_stale_session_teardown_witness :
    (ib_connect { c6_env with probe := .raises } c6_state).toreDownStale = true ∧
    (ib_connect { c6_env with probe := .raises } c6_state).attemptedFresh = true :=
  (C6_amended_stale_session_teardown { c6_env with probe := .raises } c6_state (by decide)).1
    (by decide)

/-- Claim C7: hysteresis — a failing (or timed-out) heartbeat probe that
leaves `consecutiveFailures` strictly below the threshold leaves
`heartbeatVerified` exactly as it was; the transition of `heartbeatVerified`
to false happens exactly when the counter reaches the threshold: at the
threshold the timeout branch leaves it false, and the failure branch leaves
it false unless its own recovery connect immediately re-establishes the
session. -/
theorem C7_hysteresis :
    ∀ (env : HbEnv) (s : ConnStatus),
      hb_succeeds env = false →
      ((s.heartbeat_failures + 1 < HEARTBEAT_MAX_FAILURES →
          (heartbeat_cycle env s).state.heartbeat_verified = s.heartbeat_verified ∧
          (heartbeat_cycle env s).state.heartbeat_failures = s.heartbeat_failures + 1) ∧
       (HEARTBEAT_MAX_FAILURES ≤ s.heartbeat_failures + 1 →
          (env.outcome = HbOutcome.timeout →
            (heartbeat_cycle env s).state.heartbeat_verified = false) ∧
          (∀ isConn pr, env.outcome = HbOutcome.probe isConn pr →
            (heartbeat_cycle env s).state.heartbeat_verified
              = connect_establishes env.recovery))) := by
  intro env s hfail
  rcases env with ⟨oc, n, rec⟩
  rcases oc with ⟨isConn, pr⟩ | _
  · simp only [hb_succeeds] at hfail
    constructor
    · intro hlt
      have hth : ¬ HEARTBEAT_MAX_FAILURES ≤ (bump_failures s).heartbeat_failures := by
        simp only [bump_failures]
        omega
      have hcyc : heartbeat_cycle ⟨.probe isConn pr, n, rec⟩ s = ⟨bump_failures s, false⟩ := by
        simp [heartbeat_cycle, hfail, hth]
      rw [hcyc]
      exact ⟨rfl, rfl⟩
    · intro hge
      have hth : HEARTBEAT_MAX_FAILURES ≤ (bump_failures s).heartbeat_failures := by
        simp only [bump_failures]
        omega
      refine ⟨by simp, ?_⟩
      intro isConn₂ pr₂ hoc
      simp only [heartbeat_cycle, hfail, Bool.false_eq_true, if_false, hth, if_true]
      exact connect_verified_of_unverified rec _ (by simp [mark_dead])
  · constructor
    · intro hlt
      have hth : ¬ HEARTBEAT_MAX_FAILURES ≤ (bump_failures s).heartbeat_failures := by
        simp only [bump_failures]
        omega
      have hcyc : heartbeat_cycle ⟨.timeout, n, rec⟩ s = ⟨bump_failures s, false⟩ := by
        simp [heartbeat_cycle, hth]
      rw [hcyc]
      exact ⟨rfl, rfl⟩
    · intro hge
      have hth : HEARTBEAT_MAX_FAILURES ≤ (bump_failures s).heartbeat_failures := by
        simp only [bump_failures]
        omega
      refine ⟨?_, by intro _ _ h; cases h⟩
      intro _
      simp [heartbeat_cycle, hth, mark_dead]

/-- Witness for the C7 hysteresis theorem: one timed-out probe from the
freshly-connected state leaves the verified flag unchanged. -/
theorem C7_hysteresis_witness :
    (heartbeat_cycle ⟨.timeout, 0, c2_recovery_env⟩ c5_state).state.heartbeat_verified
        = c5_state.heartbeat_verified ∧
    (heartbeat_cycle ⟨.timeout, 0, c2_recovery_env⟩ c5_state).state.heartbeat_failures
        = c5_state.heartbeat_failures + 1 :=
  (C7_hysteresis ⟨.timeout, 0, c2_recovery_env⟩ c5_state (by decide)).1 (by decide)
